import Mathlib

/-!  Verification of the gateway object store (package `store`, PostgresStore).

A shallow embedding of the Postgres-backed schema-less object store and of the
JQL-to-SQL compiler (`pgProcess*`).  Pure string-building code is translated
function by function; the database interaction of each store method is
modelled as a state transition on an explicit table of rows, following the
fixed SQL statement the method executes.  Go runtime panics (out-of-range
indexing, failed type assertions) are modelled as explicit outcomes.  -/

namespace Gateway

/-- A decoded JSON value as Go's encoding/json produces for an `interface` box:
objects become string-keyed maps (modelled as association lists kept in
insertion order), arrays become slices.  The `int` constructor represents a Go
int64 value living inside the box: the store places the backend-generated
identifier into documents under the key `$id` as an int64, not as JSON text.
Numeric JSON text is carried verbatim. -/
inductive JValue : Type where
  | null : JValue
  | bool (b : Bool) : JValue
  | num (text : String) : JValue
  | str (s : String) : JValue
  | int (n : Int) : JValue
  | arr (elems : List JValue) : JValue
  | obj (fields : List (String × JValue)) : JValue

/-- Whether the boxed value is a string-keyed map: the unchecked type assertion
`object.(map[string]interface)` in the store succeeds exactly on these. -/
def JValue.isObj : JValue → Bool
  | .obj _ => true
  | _ => false

/-- Go `delete(m, k)` on a string-keyed map. -/
def mapDelete (k : String) (m : List (String × JValue)) : List (String × JValue) :=
  m.filter (fun kv => !(kv.1 == k))

/-- Go `m[k] = v` on a string-keyed map. -/
def mapSet (k : String) (v : JValue) (m : List (String × JValue)) :
    List (String × JValue) :=
  if m.any (fun kv => kv.1 == k) then
    m.map (fun kv => if kv.1 == k then (k, v) else kv)
  else m ++ [(k, v)]

/-- Go `m[k]` lookup on a string-keyed map. -/
def mapLookup (k : String) (m : List (String × JValue)) : Option JValue :=
  (m.find? (fun kv => kv.1 == k)).map Prod.snd

/-- A caller-supplied bound parameter, one Go interface value of the type
switch in pgProcessExpression.  float64 values are carried as their fmt `%v`
rendering so the embedding stays computable; `null` is the switch's default
branch (a nil interface, or any value of a type the switch does not name). -/
inductive Param : Type where
  | str (s : String)
  | float (text : String)
  | int (n : Int)
  | bool (b : Bool)
  | null
deriving DecidableEq

/-- The operand of a JQL predicate, following the grammar's `value` production:
a 1-indexed placeholder, a quoted string literal (carried without its quotes,
as `buffer[begin+1:end-1]` extracts it), a numeric literal's text, a boolean
literal's text, or the null literal. -/
inductive Operand : Type where
  | placeholder (n : Nat)
  | str (s : String)
  | num (text : String)
  | bool (text : String)
  | null
deriving DecidableEq

/-- One JQL `expression` node: either a bare boolean literal, or
`path operator operand` where the path is the list of its word segments and
the operator text is already trimmed. -/
inductive Expr : Type where
  | boolLit (text : String)
  | pred (path : List String) (op : String) (operand : Operand)
deriving DecidableEq

mutual
/-- A JQL `e3` node: a predicate or a parenthesized sub-query. -/
inductive Term : Type where
  | expr (e : Expr) : Term
  | group (g : Disj) : Term
/-- A JQL `e2` node: the conjunction's list of `e3` children. -/
inductive Conj : Type where
  | nil : Conj
  | cons (t : Term) (rest : Conj) : Conj
/-- A JQL `e1` node: the disjunction's list of `e2` children. -/
inductive Disj : Type where
  | nil : Disj
  | cons (c : Conj) (rest : Disj) : Disj
end

/-- Number of disjuncts of an `e1` node. -/
def Disj.length : Disj → Nat
  | .nil => 0
  | .cons _ rest => 1 + rest.length

/-- The ORDER BY target: a bare path, or `CAST(path)` for numeric ordering. -/
inductive OrderTarget : Type where
  | path (segments : List String)
  | cast (segments : List String)
deriving DecidableEq

/-- The optional ASC / DESC direction token of an order clause. -/
inductive OrderDir : Type where
  | asc
  | desc
deriving DecidableEq

/-- A JQL `order` node. -/
structure OrderBy : Type where
  target : OrderTarget
  dir : Option OrderDir
deriving DecidableEq

/-- A parsed JQL query: the `e` node's children in grammar order — the
boolean part and the optional order, limit and offset clauses (the clause
values carry the matched `value1` text). -/
structure Ast : Type where
  disj : Disj
  order : Option OrderBy := none
  limit : Option String := none
  offset : Option String := none

/-- A Go runtime panic raised by the embedded code (out-of-range slice or
list access, failed type assertion). -/
inductive GoPanic : Type where
  | outOfRange
deriving DecidableEq

/-- Computation that may abort with a Go runtime panic. -/
abbrev Emit (α : Type) : Type := Except GoPanic α

/-- Go slice/array indexing at a possibly negative position: out of range
is a runtime panic. -/
def goIndex (l : List α) (i : Int) : Emit α :=
  if h : 0 ≤ i ∧ i.toNat < l.length then .ok (l.get ⟨i.toNat, h.2⟩)
  else .error .outOfRange

/-- The compiled fragment: pgProcess* result, SQL text plus accumulated
compile errors (source: `type Query struct { s string; errors []error }`,
errors carried as their messages). -/
structure Query : Type where
  s : String
  errors : List String
deriving DecidableEq

/-- The JSON-descent text built by pgProcessPath and inline by
pgProcessExpression: `object`, every segment but the last descended with the
get-child-as-JSON arrow, the last with the get-child-as-text arrow.  Go
indexes `segments[last]` with `last = len(segments)-1`, so an empty segment
list is an out-of-range panic. -/
def pgPathText : List String → Emit String
  | [] => .error .outOfRange
  | seg :: segs =>
    let all := seg :: segs
    .ok ("object"
      ++ String.join (all.dropLast.map (fun w => "->'" ++ w ++ "'"))
      ++ "->>'" ++ all.getLastD "" ++ "'")

/-- pgProcessExpression: emits one predicate.  A bare boolean literal passes
through.  Otherwise the path text is built, then the operand drives emission:
a placeholder whose index exceeds the bound-parameter count accumulates the
bind error `placholder to large` (sic) and keeps the bare path text; an
in-range placeholder is resolved at position index-1 (so index 0 is an
out-of-range panic — only the upper bound is validated) and dispatched on the
bound value's runtime type; string operands are interpolated inline between
single quotes with no escaping; numeric literals dispatch on whether their
text contains a decimal point; a null operand (or null-bound placeholder)
rewrites `=` to IS NULL and `!=` to IS NOT NULL, eliding the operand, and
leaves the bare path text for any other operator. -/
def pgProcessExpression (param : List Param) : Expr → Emit Query
  | .boolLit text => .ok ⟨text, []⟩
  | .pred path op operand => do
    let s ← pgPathText path
    match operand with
    | .placeholder n =>
      if n > param.length then
        pure ⟨s, ["placholder to large"]⟩
      else do
        let p ← goIndex param ((n : Int) - 1)
        match p with
        | .str v => pure ⟨s ++ " " ++ op ++ " '" ++ v ++ "'", []⟩
        | .float t => pure ⟨"CAST(" ++ s ++ " as FLOAT) " ++ op ++ " " ++ t, []⟩
        | .int v => pure ⟨"CAST(" ++ s ++ " as INTEGER) " ++ op ++ " " ++ toString v, []⟩
        | .bool b =>
          pure ⟨"CAST(" ++ s ++ " as BOOLEAN) " ++ op ++ " "
            ++ (if b then "true" else "false"), []⟩
        | .null =>
          match op with
          | "=" => pure ⟨s ++ " IS NULL", []⟩
          | "!=" => pure ⟨s ++ " IS NOT NULL", []⟩
          | _ => pure ⟨s, []⟩
    | .str v => pure ⟨s ++ " " ++ op ++ " '" ++ v ++ "'", []⟩
    | .num t =>
      if t.data.contains '.' then
        pure ⟨"CAST(" ++ s ++ " as FLOAT) " ++ op ++ " " ++ t, []⟩
      else
        pure ⟨"CAST(" ++ s ++ " as INTEGER) " ++ op ++ " " ++ t, []⟩
    | .bool t => pure ⟨"CAST(" ++ s ++ " as BOOLEAN) " ++ op ++ " " ++ t, []⟩
    | .null =>
      match op with
      | "=" => pure ⟨s ++ " IS NULL", []⟩
      | "!=" => pure ⟨s ++ " IS NOT NULL", []⟩
      | _ => pure ⟨s, []⟩

mutual
/-- pgProcessRulee3: a predicate compiles directly; a parenthesized group
recompiles the inner disjunction, which pgProcess wraps as `( inner )`, and
adds its own surrounding parentheses. -/
def pgProcessRulee3 (param : List Param) : Term → Emit Query
  | .expr e => pgProcessExpression param e
  | .group g => do
    let x ← pgProcessRulee1 param g
    pure ⟨"(" ++ ("( " ++ x.s ++ " )") ++ ")", x.errors⟩
/-- pgProcessRulee2: joins the compiled `e3` children with ` AND `,
concatenating their error lists. -/
def pgProcessRulee2 (param : List Param) : Conj → Emit Query
  | .nil => pure ⟨"", []⟩
  | .cons t rest => do
    let x ← pgProcessRulee3 param t
    let r ← pgProcessRulee2 param rest
    pure ⟨x.s ++ (match rest with | .nil => "" | .cons _ _ => " AND " ++ r.s),
      x.errors ++ r.errors⟩
/-- pgProcessRulee1: joins the compiled `e2` children with ` OR `,
concatenating their error lists. -/
def pgProcessRulee1 (param : List Param) : Disj → Emit Query
  | .nil => pure ⟨"", []⟩
  | .cons c rest => do
    let x ← pgProcessRulee2 param c
    let r ← pgProcessRulee1 param rest
    pure ⟨x.s ++ (match rest with | .nil => "" | .cons _ _ => " OR " ++ r.s),
      x.errors ++ r.errors⟩
end

/-- pgProcessCast: the numeric-ordering form of an order target. -/
def pgProcessCast (segments : List String) : Emit String := do
  let p ← pgPathText segments
  pure ("CAST( " ++ p ++ " as numeric )")

/-- pgProcessOrder: `ORDER BY` plus the target, plus the direction token. -/
def pgProcessOrder (o : OrderBy) : Emit String := do
  let t ← match o.target with
    | .path segs => pgPathText segs
    | .cast segs => pgProcessCast segs
  pure ("ORDER BY " ++ t
    ++ (match o.dir with | some .asc => " ASC" | some .desc => " DESC" | none => ""))

/-- pgProcess over the top `e` node: the compiled disjunction wrapped as
`( … )`, then the optional order / limit / offset clauses each appended after
one space (limit and offset reuse the trimmed `value1` text).  Only the
disjunction's errors are carried into the result, as in the source. -/
def pgProcess (param : List Param) (a : Ast) : Emit Query := do
  let x ← pgProcessRulee1 param a.disj
  let s0 := "( " ++ x.s ++ " )"
  let s1 ← match a.order with
    | none => pure s0
    | some o => do
      let t ← pgProcessOrder o
      pure (s0 ++ " " ++ t)
  let s2 := match a.limit with
    | none => s1
    | some v => s1 ++ " " ++ ("LIMIT " ++ v.trim)
  let s3 := match a.offset with
    | none => s2
    | some v => s2 ++ " " ++ ("OFFSET " ++ v.trim)
  pure ⟨s3, x.errors⟩

/-- A statement handed to the backend: the SQL text and the positional bind
arguments, in order. -/
structure Stmt : Type where
  query : String
  args : List Param
deriving DecidableEq

/-- The statement-construction step of PostgresStore._Select (after the parse):
compiles the AST — reading only the `.s` field, so the accumulated compile
errors are discarded — appends the account id and the collection to the
caller's bound parameters, and interpolates their 1-based positions into the
fixed template.  The tenant and collection equality predicates come from the
template itself, never from the caller's query text. -/
def selectStatement (accountID : Int) (collection : String) (a : Ast)
    (params : List Param) : Emit Stmt := do
  let q ← pgProcess params a
  let length := params.length
  pure ⟨"SELECT id, account_id, collection, object FROM objects WHERE account_id = $"
      ++ toString (length + 1) ++ " AND collection = $" ++ toString (length + 2)
      ++ " AND " ++ q.s ++ ";",
    params ++ [Param.int accountID, Param.str collection]⟩

/-- One persisted row of the `objects` table.  The JSON column is carried as
its decoded value (serialization round-trips through json.Marshal /
json.Unmarshal). -/
structure Row : Type where
  id : Int
  account_id : Int
  collection : String
  object : JValue

/-- The `objects` table plus the backend's identifier sequence. -/
structure StoreState : Type where
  rows : List Row
  nextId : Int

/-- The WHERE clause common to SelectByID / UpdateByID / DeleteByID:
`id = $1 AND account_id = $2 AND collection = $3`. -/
def rowKeyMatch (accountID : Int) (collection : String) (id : Int) (r : Row) : Bool :=
  r.id == id && r.account_id == accountID && r.collection == collection

/-- Outcome of a store call: a value, a Go error value, or a runtime panic. -/
inductive GoResult (α : Type) where
  | ok (a : α)
  | err (msg : String)
  | panicked

/-- PostgresStore.SelectByID: reads the single row keyed by id, account id and
collection; absence surfaces the backend's no-rows error.  The decoded body
goes through the unchecked assertion to a string-keyed map before the
identifier is attached, so a non-object body is a runtime panic. -/
def SelectByID (accountID : Int) (collection : String) (id : Int)
    (st : StoreState) : GoResult JValue :=
  match st.rows.find? (rowKeyMatch accountID collection id) with
  | none => .err "sql: no rows in result set"
  | some r =>
    match r.object with
    | .obj fields => .ok (.obj (mapSet "$id" (.int r.id) fields))
    | _ => .panicked

/-- PostgresStore.UpdateByID: strips the inbound `$id`, replaces the body of
every row matching the key (the statement's result is never inspected, so zero
matched rows is still a success), and re-attaches `$id` to the in-memory
document.  The unchecked map assertion panics for a non-object document. -/
def UpdateByID (accountID : Int) (collection : String) (id : Int)
    (object : JValue) (st : StoreState) : GoResult JValue × StoreState :=
  match object with
  | .obj fields =>
    let body := JValue.obj (mapDelete "$id" fields)
    (.ok (.obj (mapSet "$id" (.int id) (mapDelete "$id" fields))),
     ⟨st.rows.map (fun r =>
        if rowKeyMatch accountID collection id r then { r with object := body } else r),
      st.nextId⟩)
  | _ => (.panicked, st)

/-- The `add` closure of PostgresStore.Insert: one execution of the prepared
INSERT.  `reject` models the backend refusing the row (e.g. a constraint
violation); on acceptance the row is appended with the next generated
identifier and `$id` is attached to the in-memory document.  The unchecked
map assertion panics for a non-object document. -/
def insertOne (reject : JValue → Bool) (accountID : Int) (collection : String)
    (object : JValue) (st : StoreState) : GoResult JValue × StoreState :=
  match object with
  | .obj fields =>
    let body := JValue.obj (mapDelete "$id" fields)
    if reject body then (.err "constraint violation", st)
    else
      (.ok (.obj (mapSet "$id" (.int st.nextId) (mapDelete "$id" fields))),
       ⟨st.rows ++ [⟨st.nextId, accountID, collection, body⟩], st.nextId + 1⟩)
  | _ => (.panicked, st)

/-- The bulk loop of PostgresStore.Insert, threading the transaction-local
state: stops at the first error or panic. -/
def insertLoop (reject : JValue → Bool) (accountID : Int) (collection : String) :
    List JValue → StoreState → GoResult (List JValue) × StoreState
  | [], st => (.ok [], st)
  | o :: os, st =>
    match insertOne reject accountID collection o st with
    | (.ok r, st1) =>
      match insertLoop reject accountID collection os st1 with
      | (.ok rs, st2) => (.ok (r :: rs), st2)
      | (.err e, st2) => (.err e, st2)
      | (.panicked, st2) => (.panicked, st2)
    | (.err e, st1) => (.err e, st1)
    | (.panicked, st1) => (.panicked, st1)

/-- PostgresStore.Insert: one transaction, one prepared statement; an array
document is a bulk insert.  The deferred function rolls the transaction back
when the named error is set — so an error restores the pre-call state — and
commits otherwise; a panic unwinds through the deferred function while the
named error is still nil, so the rows inserted before the panic are committed
as the panic continues. -/
def Insert (reject : JValue → Bool) (accountID : Int) (collection : String)
    (object : JValue) (st : StoreState) : GoResult (List JValue) × StoreState :=
  match object with
  | .arr objects =>
    match insertLoop reject accountID collection objects st with
    | (.ok rs, st1) => (.ok rs, st1)
    | (.err e, _) => (.err e, st)
    | (.panicked, st1) => (.panicked, st1)
  | o =>
    match insertOne reject accountID collection o st with
    | (.ok r, st1) => (.ok [r], st1)
    | (.err e, _) => (.err e, st)
    | (.panicked, st1) => (.panicked, st1)

/-- The row-decoding loop of PostgresStore._Select: each returned row's body
is unmarshalled and the synthetic identifier is attached through the unchecked
assertion to a string-keyed map, so a non-object stored body is a runtime
panic. -/
def selectScan : List Row → GoResult (List JValue)
  | [] => .ok []
  | r :: rest =>
    match r.object with
    | .obj fields =>
      match selectScan rest with
      | .ok rs => .ok (.obj (mapSet "$id" (.int r.id) fields) :: rs)
      | .err e => .err e
      | .panicked => .panicked
    | _ => .panicked

/-- The stored schema version plus whether the `objects` DDL has been applied.
`schema = none` models an absent schema table; `some rows` carries the version
rows (a read takes the first, `LIMIT 1`). -/
structure PgDatabase : Type where
  schema : Option (List Int)
  objects : Bool
deriving DecidableEq

/-- `postgresCurrentVersion`. -/
def postgresCurrentVersion : Int := 1

/-- The error Migrate returns when behind and not permitted to migrate. -/
def migrateErrText : String :=
  "The store is not up to date. Please migrate by invoking with the -store-migrate flag."

/-- PostgresStore.Migrate: reads the version (a failed read leaves the Go zero
value 0 in `currentVersion`, creates the schema table, seeds version 0 and
forces `migrate` on regardless of configuration); version already at target is
a silent no-op; behind target without permission is an error with no DDL
applied; otherwise the one v0→v1 step applies the objects DDL and the version
bump in one transaction. -/
def Migrate (confMigrate : Bool) (db : PgDatabase) : PgDatabase × Option String :=
  let readVersion : Option Int := db.schema.bind List.head?
  let currentVersion : Int := readVersion.getD 0
  let seeded : PgDatabase :=
    match readVersion with
    | none => { db with schema := some ((db.schema.getD []) ++ [0]) }
    | some _ => db
  let migrate : Bool :=
    match readVersion with
    | none => true
    | some _ => confMigrate
  if currentVersion = postgresCurrentVersion then (seeded, none)
  else if migrate = false then (seeded, some migrateErrText)
  else if currentVersion < 1 then
    ({ seeded with
        objects := true,
        schema := some ((seeded.schema.getD []).map (fun _ => (1 : Int))) }, none)
  else (seeded, none)

/-!  A model of the SQL backend, used to settle the tenant-isolation claim:
the backend receives only the emitted statement text and the bind arguments,
so its behaviour on a row is fixed by tokenizing the WHERE clause and parsing
it with standard SQL precedence (OR loosest, then AND, then comparisons;
parentheses group), then evaluating with SQL three-valued logic.  The parser
is fuelled so every function stays a total computable definition.  -/

/-- A token of an emitted WHERE clause. -/
inductive Tok : Type where
  | word (s : String)
  | strLit (s : String)
  | numLit (s : String)
  | bindRef (n : Nat)
  | lparen
  | rparen
  | arrow
  | dblArrow
  | cmpOp (s : String)
deriving DecidableEq

/-- Identifier characters of the SQL dialect. -/
def isWordChar (c : Char) : Bool := c.isAlphanum || c == '_'

/-- Decimal value of a non-empty all-digit character list. -/
def natFromChars (cs : List Char) : Option Nat :=
  if !cs.isEmpty && cs.all Char.isDigit then
    some (cs.foldl (fun n c => n * 10 + (c.toNat - 48)) 0)
  else none

/-- Decimal value of an optionally negated all-digit character list. -/
def intFromChars : List Char → Option Int
  | '-' :: rest => (natFromChars rest).map (fun n => -(n : Int))
  | cs => (natFromChars cs).map (fun n => (n : Int))

/-- Tokenizer loop for emitted WHERE clauses, tail-recursive over an
accumulator: single-quoted literals (no escape handling — none of the
evaluated statements contains a doubled quote), the JSON descent arrows,
comparison operators, `$n` bind references, numbers and words.  The fuel only
needs to exceed the character count. -/
def sqlTokenizeAux : Nat → List Char → List Tok → Option (List Tok)
  | 0, _, _ => none
  | _ + 1, [], acc => some acc.reverse
  | fuel + 1, c :: cs, acc =>
    if c == ' ' then sqlTokenizeAux fuel cs acc
    else if c == '(' then sqlTokenizeAux fuel cs (Tok.lparen :: acc)
    else if c == ')' then sqlTokenizeAux fuel cs (Tok.rparen :: acc)
    else if c == '\'' then
      match cs.span (fun ch => !(ch == '\'')) with
      | (content, _ :: rest) =>
        sqlTokenizeAux fuel rest (Tok.strLit (String.mk content) :: acc)
      | (_, []) => none
    else if c == '-' then
      match cs with
      | '>' :: '>' :: rest => sqlTokenizeAux fuel rest (Tok.dblArrow :: acc)
      | '>' :: rest => sqlTokenizeAux fuel rest (Tok.arrow :: acc)
      | _ => none
    else if c == '$' then
      match cs.span Char.isDigit with
      | ([], _) => none
      | (digits, rest) =>
        match natFromChars digits with
        | some n => sqlTokenizeAux fuel rest (Tok.bindRef n :: acc)
        | none => none
    else if c == '=' then sqlTokenizeAux fuel cs (Tok.cmpOp "=" :: acc)
    else if c == '!' then
      match cs with
      | '=' :: rest => sqlTokenizeAux fuel rest (Tok.cmpOp "!=" :: acc)
      | _ => none
    else if c == '<' then
      match cs with
      | '=' :: rest => sqlTokenizeAux fuel rest (Tok.cmpOp "<=" :: acc)
      | _ => sqlTokenizeAux fuel cs (Tok.cmpOp "<" :: acc)
    else if c == '>' then
      match cs with
      | '=' :: rest => sqlTokenizeAux fuel rest (Tok.cmpOp ">=" :: acc)
      | _ => sqlTokenizeAux fuel cs (Tok.cmpOp ">" :: acc)
    else if c.isDigit then
      match (c :: cs).span (fun ch => ch.isDigit || ch == '.') with
      | (digits, rest) => sqlTokenizeAux fuel rest (Tok.numLit (String.mk digits) :: acc)
    else if isWordChar c then
      match (c :: cs).span isWordChar with
      | (w, rest) => sqlTokenizeAux fuel rest (Tok.word (String.mk w) :: acc)
    else none

/-- Tokenize a WHERE clause. -/
def sqlTokenize (fuel : Nat) (cs : List Char) : Option (List Tok) :=
  sqlTokenizeAux fuel cs []

/-- An SQL scalar value. -/
inductive SqlVal : Type where
  | vstr (s : String)
  | vint (n : Int)
  | vbool (b : Bool)
  | vnull
deriving DecidableEq

/-- An operand of a parsed WHERE clause: a column of the objects table, a JSON
text extraction on the `object` column, a literal, or a bind reference. -/
inductive SOperand : Type where
  | col (name : String)
  | jsonText (path : List String)
  | lit (v : SqlVal)
  | bindRef (n : Nat)
deriving DecidableEq

/-- A parsed WHERE condition. -/
inductive SCond : Type where
  | cmp (l : SOperand) (op : String) (r : SOperand)
  | isNull (l : SOperand)
  | isNotNull (l : SOperand)
  | and (a b : SCond)
  | or (a b : SCond)
deriving DecidableEq

/-- After the column `object`, a chain of `->'k'` descents ending in one
`->>'k'` text extraction. -/
def parsePath : Nat → List Tok → Option (List String × List Tok)
  | 0, _ => none
  | fuel + 1, toks =>
    match toks with
    | .arrow :: .strLit k :: rest =>
      (parsePath fuel rest).map (fun pr => (k :: pr.1, pr.2))
    | .dblArrow :: .strLit k :: rest => some ([k], rest)
    | _ => none

/-- One comparison operand. -/
def parseOperand : List Tok → Option (SOperand × List Tok)
  | .strLit s :: rest => some (.lit (.vstr s), rest)
  | .numLit s :: rest => (intFromChars s.data).map (fun n => (SOperand.lit (.vint n), rest))
  | .bindRef n :: rest => some (.bindRef n, rest)
  | .word w :: rest =>
    if w == "object" then
      (parsePath (rest.length + 1) rest).map (fun pr => (SOperand.jsonText pr.1, pr.2))
    else if w == "NULL" || w == "CAST" || w == "AND" || w == "OR" || w == "IS" then none
    else some (.col w, rest)
  | _ => none

/-- Recursive-descent parse of a token stream at a precedence level, one
structurally fuelled function so that it reduces on concrete input: level 0
parses a disjunction (OR, loosest), level 1 a conjunction (AND), level 2 a
primary — a parenthesized disjunction, a comparison, or an IS NULL / IS NOT
NULL test; levels 3 and 4 left-associate the continuation of an OR / AND
chain onto the accumulated operand. -/
def parseCond : Nat → Nat → Option SCond → List Tok → Option (SCond × List Tok)
  | 0, _, _, _ => none
  | fuel + 1, 0, _, toks =>
    match parseCond fuel 1 none toks with
    | some (c, rest) => parseCond fuel 3 (some c) rest
    | none => none
  | fuel + 1, 1, _, toks =>
    match parseCond fuel 2 none toks with
    | some (c, rest) => parseCond fuel 4 (some c) rest
    | none => none
  | fuel + 1, 2, _, toks =>
    match toks with
    | .lparen :: rest =>
      match parseCond fuel 0 none rest with
      | some (c, .rparen :: rest2) => some (c, rest2)
      | _ => none
    | _ =>
      match parseOperand toks with
      | some (l, restA) =>
        match restA with
        | .word "IS" :: .word "NULL" :: rest => some (.isNull l, rest)
        | .word "IS" :: .word "NOT" :: .word "NULL" :: rest => some (.isNotNull l, rest)
        | .cmpOp op :: rest =>
          match parseOperand rest with
          | some (r, rest2) => some (.cmp l op r, rest2)
          | none => none
        | _ => none
      | none => none
  | fuel + 1, 3, some acc, toks =>
    match toks with
    | .word "OR" :: rest =>
      match parseCond fuel 1 none rest with
      | some (c, rest2) => parseCond fuel 3 (some (SCond.or acc c)) rest2
      | none => none
    | _ => some (acc, toks)
  | fuel + 1, 4, some acc, toks =>
    match toks with
    | .word "AND" :: rest =>
      match parseCond fuel 2 none rest with
      | some (c, rest2) => parseCond fuel 4 (some (SCond.and acc c)) rest2
      | none => none
    | _ => some (acc, toks)
  | _ + 1, _, _, _ => none

/-- Parse a complete WHERE clause; every token must be consumed. -/
def parseWhereClause (s : String) : Option SCond :=
  match sqlTokenize (s.length + 1) s.data with
  | some toks =>
    match parseCond (4 * (toks.length + 2)) 0 none toks with
    | some (c, []) => some c
    | _ => none
  | none => none

/-- Child lookup of the JSON `->` descent. -/
def jsonChild (v : JValue) (k : String) : Option JValue :=
  match v with
  | .obj fields => mapLookup k fields
  | _ => none

/-- The `->>` text extraction renders a JSON scalar as text (unsupported for
object or array results, which none of the evaluated statements produces). -/
def jsonAsText : JValue → Option SqlVal
  | .str s => some (.vstr s)
  | .num t => some (.vstr t)
  | .bool b => some (.vstr (if b then "true" else "false"))
  | .null => some .vnull
  | .int n => some (.vstr (toString n))
  | _ => none

/-- Evaluate a JSON descent path on a document; a missing key yields SQL
NULL. -/
def evalJsonPath (v : JValue) : List String → Option SqlVal
  | [] => none
  | [k] =>
    match jsonChild v k with
    | some w => jsonAsText w
    | none => some .vnull
  | k :: rest =>
    match jsonChild v k with
    | some w => evalJsonPath w rest
    | none => some .vnull

/-- A bind argument as the SQL value the backend receives. -/
def paramVal : Param → Option SqlVal
  | .str s => some (.vstr s)
  | .int n => some (.vint n)
  | .bool b => some (.vbool b)
  | .null => some .vnull
  | .float _ => none

/-- Evaluate one operand against a row of the objects table. -/
def evalOperand (r : Row) (args : List Param) : SOperand → Option SqlVal
  | .col n =>
    if n == "account_id" then some (.vint r.account_id)
    else if n == "collection" then some (.vstr r.collection)
    else if n == "id" then some (.vint r.id)
    else none
  | .jsonText p => evalJsonPath r.object p
  | .lit v => some v
  | .bindRef n =>
    match args.get? (n - 1) with
    | some p => paramVal p
    | none => none

/-- SQL three-valued truth. -/
inductive TriBool : Type where
  | tt
  | ff
  | unknown
deriving DecidableEq

/-- Kleene conjunction. -/
def TriBool.andK : TriBool → TriBool → TriBool
  | .ff, _ => .ff
  | _, .ff => .ff
  | .tt, .tt => .tt
  | _, _ => .unknown

/-- Kleene disjunction. -/
def TriBool.orK : TriBool → TriBool → TriBool
  | .tt, _ => .tt
  | _, .tt => .tt
  | .ff, .ff => .ff
  | _, _ => .unknown

/-- Evaluate one comparison: any NULL side is unknown; strings and booleans
compare for equality, integers also by order. -/
def evalCmp (l : SqlVal) (op : String) (r : SqlVal) : Option TriBool :=
  match l, r with
  | .vnull, _ => some .unknown
  | _, .vnull => some .unknown
  | .vstr a, .vstr b =>
    if op == "=" then some (if a == b then .tt else .ff)
    else if op == "!=" then some (if a == b then .ff else .tt)
    else none
  | .vint a, .vint b =>
    if op == "=" then some (if a == b then .tt else .ff)
    else if op == "!=" then some (if a == b then .ff else .tt)
    else if op == "<" then some (if a < b then .tt else .ff)
    else if op == "<=" then some (if a ≤ b then .tt else .ff)
    else if op == ">" then some (if b < a then .tt else .ff)
    else if op == ">=" then some (if b ≤ a then .tt else .ff)
    else none
  | .vbool a, .vbool b =>
    if op == "=" then some (if a == b then .tt else .ff)
    else if op == "!=" then some (if a == b then .ff else .tt)
    else none
  | _, _ => none

/-- Evaluate a parsed condition against one row. -/
def evalCond (r : Row) (args : List Param) : SCond → Option TriBool
  | .cmp l op rr => do
    let lv ← evalOperand r args l
    let rv ← evalOperand r args rr
    evalCmp lv op rv
  | .isNull l =>
    (evalOperand r args l).map (fun v => if v == SqlVal.vnull then .tt else .ff)
  | .isNotNull l =>
    (evalOperand r args l).map (fun v => if v == SqlVal.vnull then .ff else .tt)
  | .and a b => do
    let x ← evalCond r args a
    let y ← evalCond r args b
    pure (x.andK y)
  | .or a b => do
    let x ← evalCond r args a
    let y ← evalCond r args b
    pure (x.orK y)

/-- Whether the backend keeps the row: the WHERE clause must evaluate to true
(unknown filters the row out, like false). -/
def whereSatisfies (w : String) (r : Row) (args : List Param) : Option Bool :=
  (parseWhereClause w).bind
    (fun c => (evalCond r args c).map (fun t => t == TriBool.tt))

/-- Whether the boxed value is a Go slice (the bulk-insert dispatch test). -/
def JValue.isArr : JValue → Bool
  | .arr _ => true
  | _ => false

/-- Whether a document carries the synthetic identifier field at top level. -/
def hasId : JValue → Bool
  | .obj fields => fields.any (fun kv => kv.1 == "$id")
  | _ => false

/-- The query text `name = $1` as its parsed AST. -/
def probeAst : Ast :=
  ⟨.cons (.cons (.expr (.pred ["name"] "=" (.placeholder 1))) .nil) .nil,
   none, none, none⟩

/-- An injection payload bound to `$1`: closes the string literal, closes the
isolation parenthesis, and disjoins a tautology. -/
def breachParam : Param := .str "x') OR ('1'='1"

/-- The WHERE clause _Select emits for `name = $1` bound to `breachParam`
(one caller parameter, so the appended tenant and collection binds are $2 and
$3). -/
def breachWhere : String :=
  "account_id = $2 AND collection = $3 AND ( object->>'name' = 'x') OR ('1'='1' )"

/-- The WHERE clause _Select emits for `name = $1` bound to the honest value
`x`. -/
def benignWhere : String :=
  "account_id = $2 AND collection = $3 AND ( object->>'name' = 'x' )"

/-- A document of tenant 1. -/
def tenantOneDoc : JValue := .obj [("name", .str "x")]

/-- The row Insert persists for `tenantOneDoc` under tenant 1, collection
`c`, when the backend sequence stands at 5. -/
def tenantOneRow : Row := ⟨5, 1, "c", tenantOneDoc⟩

/-- `name = $1` as a single-predicate disjunction (one conjunct, one term). -/
def singlePredDisj : Disj :=
  .cons (.cons (.expr (.pred ["name"] "=" (.placeholder 1))) .nil) .nil

/-- The two-branch disjunction of the string-literal predicates
`name = "x"` and `b = "c"`. -/
def twoPredDisj : Disj :=
  .cons (.cons (.expr (.pred ["name"] "=" (.str "x"))) .nil)
    (.cons (.cons (.expr (.pred ["b"] "=" (.str "c"))) .nil) .nil)

/-- The fragment both `singlePredDisj` (under the quote-bearing bound string)
and `twoPredDisj` (under no parameters at all) compile to. -/
def injectedFragment : String := "object->>'name' = 'x' OR object->>'b' = 'c'"

/-- The query text `a = $1` as its parsed AST. -/
def nullProbeAst : Ast :=
  ⟨.cons (.cons (.expr (.pred ["a"] "=" (.placeholder 1))) .nil) .nil,
   none, none, none⟩

/-- The query text `a = $5 AND b = $6` as its parsed AST: two placeholders
both out of range when no parameters are bound. -/
def twoBadPlaceholders : Ast :=
  ⟨.cons (.cons (.expr (.pred ["a"] "=" (.placeholder 5)))
      (.cons (.expr (.pred ["b"] "=" (.placeholder 6))) .nil)) .nil,
   none, none, none⟩

/-!  Helper lemmas shared by the claim theorems.  -/

theorem emit_bind_ok {α β : Type} (a : α) (f : α → Emit β) :
    (bind (Except.ok a) f : Emit β) = f a := rfl

theorem emit_bind_error {α β : Type} (e : GoPanic) (f : α → Emit β) :
    (bind (Except.error e) f : Emit β) = Except.error e := rfl

theorem mapSet_hasKey (k : String) (v : JValue) (m : List (String × JValue)) :
    (mapSet k v m).any (fun kv => kv.1 == k) = true := by
  unfold mapSet
  by_cases h : m.any (fun kv => kv.1 == k)
  · rw [if_pos h, List.any_map]
    rcases List.any_eq_true.mp h with ⟨kv, hmem, hk⟩
    refine List.any_eq_true.mpr ⟨kv, hmem, ?_⟩
    simp only [Function.comp, hk, if_pos]
    simp
  · rw [if_neg h]
    simp

theorem hasId_mapSet (v : JValue) (m : List (String × JValue)) :
    hasId (.obj (mapSet "$id" v m)) = true := by
  simpa [hasId] using mapSet_hasKey "$id" v m

theorem insertOne_ok (reject : JValue → Bool) (accountID : Int)
    (collection : String) (o : JValue) (st : StoreState) (r : JValue)
    (st1 : StoreState) (h : insertOne reject accountID collection o st = (.ok r, st1)) :
    hasId r = true ∧ st1.rows.length = st.rows.length + 1 := by
  cases o <;> simp [insertOne] at h
  case obj fields =>
    by_cases hr : reject (JValue.obj (mapDelete "$id" fields))
    · rw [if_pos hr] at h
      simp at h
    · rw [if_neg hr] at h
      simp only [Prod.mk.injEq, GoResult.ok.injEq] at h
      obtain ⟨h1, h2⟩ := h
      subst h1; subst h2
      exact ⟨hasId_mapSet _ _, by simp⟩

theorem insertLoop_ok (reject : JValue → Bool) (accountID : Int)
    (collection : String) :
    ∀ (docs : List JValue) (st : StoreState) (rs : List JValue) (st1 : StoreState),
      insertLoop reject accountID collection docs st = (.ok rs, st1) →
      rs.length = docs.length ∧
      st1.rows.length = st.rows.length + docs.length ∧
      (∀ r ∈ rs, hasId r = true)
  | [], st, rs, st1, h => by
    simp [insertLoop] at h
    obtain ⟨h1, h2⟩ := h
    subst h1; subst h2
    simp
  | o :: os, st, rs, st1, h => by
    rw [insertLoop] at h
    split at h
    next r stm ho =>
      split at h
      next rs2 st2 hl =>
        simp only [Prod.mk.injEq, GoResult.ok.injEq] at h
        obtain ⟨h1, h2⟩ := h
        subst h1; subst h2
        obtain ⟨hid, hlen⟩ := insertOne_ok reject accountID collection o st r stm ho
        obtain ⟨ih1, ih2, ih3⟩ :=
          insertLoop_ok reject accountID collection os stm rs2 st2 hl
        refine ⟨by simp [ih1], by rw [ih2, hlen, List.length_cons]; omega, ?_⟩
        intro x hx
        rcases List.mem_cons.mp hx with hx | hx
        · subst hx; exact hid
        · exact ih3 x hx
      next e st2 hl => simp at h
      next st2 hl => simp at h
    next e stm ho => simp at h
    next stm ho => simp at h

theorem insertLoop_panics (reject : JValue → Bool) (accountID : Int)
    (collection : String) (w : JValue) (hw : w.isObj = false) (post : List JValue) :
    ∀ (pre : List JValue) (st : StoreState),
      (∀ u ∈ pre, ∃ f, u = JValue.obj f ∧
        reject (JValue.obj (mapDelete "$id" f)) = false) →
      (insertLoop reject accountID collection (pre ++ w :: post) st).1 = .panicked
  | [], st, _ => by
    cases w <;> simp [JValue.isObj] at hw <;> simp [insertLoop, insertOne]
  | u :: pre, st, h => by
    obtain ⟨f, rfl, hrej⟩ := h u (by simp)
    rw [List.cons_append, insertLoop]
    simp only [insertOne, hrej, if_neg, Bool.false_eq_true, not_false_iff, ite_false]
    rcases hl : insertLoop reject accountID collection (pre ++ w :: post)
        ⟨st.rows ++ [⟨st.nextId, accountID, collection, JValue.obj (mapDelete "$id" f)⟩],
         st.nextId + 1⟩ with ⟨res2, st2⟩
    have ih := insertLoop_panics reject accountID collection w hw post pre
      ⟨st.rows ++ [⟨st.nextId, accountID, collection, JValue.obj (mapDelete "$id" f)⟩],
       st.nextId + 1⟩ (fun v hv => h v (by simp [hv]))
    rw [hl] at ih
    simp at ih
    subst ih
    simp [hl]

theorem selectScan_panics (r : Row) (hr : r.object.isObj = false) (post : List Row) :
    ∀ pre : List Row, (∀ u ∈ pre, u.object.isObj = true) →
      selectScan (pre ++ r :: post) = .panicked
  | [], _ => by
    rcases hobj : r.object with _ | _ | _ | _ | _ | _ | fields <;>
      simp [selectScan, hobj] <;> simp [hobj, JValue.isObj] at hr
  | u :: pre, h => by
    have hu := h u (by simp)
    rcases hobju : u.object with _ | _ | _ | _ | _ | _ | fields <;>
      rw [hobju] at hu <;> simp [JValue.isObj] at hu
    rw [List.cons_append, selectScan]
    rw [hobju, selectScan_panics r hr post pre (fun v hv => h v (by simp [hv]))]

theorem map_unmatched_rows (accountID : Int) (collection : String) (id : Int)
    (body : JValue) :
    ∀ rows : List Row, (∀ r ∈ rows, rowKeyMatch accountID collection id r = false) →
      rows.map (fun r =>
        if rowKeyMatch accountID collection id r then { r with object := body }
        else r) = rows
  | [], _ => rfl
  | a :: as, h => by
    rw [List.map_cons, if_neg (by simp [h a (by simp)]),
      map_unmatched_rows accountID collection id body as
        (fun r hr => h r (by simp [hr]))]

/-- Claim C1 (code_bug evidence).  Tenant isolation is broken by the string
inlining of pgProcessExpression: the document `tenantOneDoc` inserted under
tenant 1 (first conjunct) is matched by the statement _Select builds for
tenant 2 over the same collection when the query `name = $1` binds the
quote-bearing string `breachParam`.  The emitted statement is the fixed
template around `breachWhere` (second conjunct); under standard SQL
precedence the injected `OR` escapes the predicate parentheses and outranks
the tenant conjunct, so the backend keeps tenant 1's row (third conjunct),
while the same query bound to the honest value `x` — a predicate matching the
document's body — keeps it out (fourth conjunct).  The tenant and collection
predicates do come from the store's template, yet they no longer govern the
WHERE clause. -/
theorem C1_select_returns_foreign_tenant_row :
    Insert (fun _ => false) 1 "c" tenantOneDoc ⟨[], 5⟩ =
      (.ok [JValue.obj [("name", .str "x"), ("$id", .int 5)]], ⟨[tenantOneRow], 6⟩) ∧
    selectStatement 2 "c" probeAst [breachParam] =
      .ok ⟨"SELECT id, account_id, collection, object FROM objects WHERE "
            ++ breachWhere ++ ";",
          [breachParam, Param.int 2, Param.str "c"]⟩ ∧
    whereSatisfies breachWhere tenantOneRow [breachParam, Param.int 2, Param.str "c"]
      = some true ∧
    whereSatisfies benignWhere tenantOneRow [Param.str "x", Param.int 2, Param.str "c"]
      = some false :=
  ⟨rfl, rfl, rfl, rfl⟩

/-- Claim C2 (code_bug evidence).  The dialect compiler is not injection-safe:
a bound string operand is interpolated between single quotes with no escaping,
so the single-predicate query `name = $1` bound to a string containing a
quote compiles to the byte-identical fragment as the genuine two-branch
disjunction `name = "x" OR b = "c"` compiled with no parameters.  The backend
sees only the fragment, so the bound string has changed one comparison into a
disjunction: the structure of the emitted SQL. -/
theorem C2_string_param_restructures_sql :
    pgProcessRulee1 [.str "x' OR object->>'b' = 'c"] singlePredDisj =
      .ok ⟨injectedFragment, []⟩ ∧
    pgProcessRulee1 [] twoPredDisj = .ok ⟨injectedFragment, []⟩ ∧
    singlePredDisj.length = 1 ∧ twoPredDisj.length = 2 :=
  ⟨rfl, rfl, rfl, rfl⟩

/-- Claim C3 (counterexample).  The null operand is elided from the emitted
SQL — the compiled test is `IS NULL` with no placeholder — but not from the
parameters passed to the backend: _Select passes the caller's bound-parameter
list unchanged (appending tenant id and collection), so the null value is
still in the argument list handed to the backend, merely unreferenced. -/
theorem C3_null_param_still_passed :
    selectStatement 7 "c" nullProbeAst [Param.null] =
      .ok ⟨"SELECT id, account_id, collection, object FROM objects WHERE account_id = $2 AND collection = $3 AND ( object->>'a' IS NULL );",
          [Param.null, Param.int 7, Param.str "c"]⟩ ∧
    Param.null ∈ [Param.null, Param.int 7, Param.str "c"] :=
  ⟨rfl, List.Mem.head _⟩

/-- Claim C3 (amended).  For a placeholder resolved to the null value — and
likewise for the null literal — the operator `=` compiles to an IS NULL test
and `!=` to an IS NOT NULL test, the operand contributing nothing to the
emitted SQL; the bound-parameter list passed to the backend is the caller's
list unchanged with tenant id and collection appended (the null value is
transmitted but unreferenced). -/
theorem C3_null_rewrite (params : List Param) (path : List String) (s : String)
    (hpath : pgPathText path = .ok s) :
    (∀ n : Nat, ¬ n > params.length → goIndex params ((n : Int) - 1) = .ok Param.null →
      pgProcessExpression params (.pred path "=" (.placeholder n)) =
        .ok ⟨s ++ " IS NULL", []⟩ ∧
      pgProcessExpression params (.pred path "!=" (.placeholder n)) =
        .ok ⟨s ++ " IS NOT NULL", []⟩) ∧
    (pgProcessExpression params (.pred path "=" .null) = .ok ⟨s ++ " IS NULL", []⟩ ∧
     pgProcessExpression params (.pred path "!=" .null) = .ok ⟨s ++ " IS NOT NULL", []⟩) ∧
    (∀ (accountID : Int) (collection : String) (a : Ast) (st : Stmt),
      selectStatement accountID collection a params = .ok st →
      st.args = params ++ [Param.int accountID, Param.str collection]) := by
  refine ⟨?_, ⟨?_, ?_⟩, ?_⟩
  · intro n hn hidx
    constructor <;>
      (simp only [pgProcessExpression, hpath, emit_bind_ok]
       rw [if_neg hn, hidx, emit_bind_ok]
       rfl)
  · simp only [pgProcessExpression, hpath, emit_bind_ok]
    rfl
  · simp only [pgProcessExpression, hpath, emit_bind_ok]
    rfl
  · intro accountID collection a st h
    rw [selectStatement] at h
    rcases hq : pgProcess params a with e | q
    · rw [hq, emit_bind_error] at h
      exact absurd h (by simp)
    · rw [hq, emit_bind_ok] at h
      simp only [pure, Except.pure, Except.ok.injEq] at h
      rw [← h]

/-- Witness for C3_null_rewrite at `a = $1` with the single bound parameter
null. -/
theorem C3_null_rewrite_witness :
    pgProcessExpression [Param.null] (.pred ["a"] "=" (.placeholder 1)) =
      .ok ⟨"object->>'a' IS NULL", []⟩ :=
  ((C3_null_rewrite [Param.null] ["a"] "object->>'a'" rfl).1 1
    (by decide) rfl).1

/-- Claim C4.  Insert runs the batch in one transaction with one prepared
statement (one `Beginx`, one `Preparex` in the source; the embedding commits
or rolls back the whole state transition): if inserting any element fails
with an error, the resulting state is exactly the pre-call state — none of
the documents of the batch is present; on success the result list has one
document per input and every returned document carries the backend-generated
`$id` field. -/
theorem C4_insert_atomicity (reject : JValue → Bool) (accountID : Int)
    (collection : String) (docs : List JValue) (st : StoreState) :
    (∀ (e : String) (st1 : StoreState),
      Insert reject accountID collection (.arr docs) st = (.err e, st1) → st1 = st) ∧
    (∀ (rs : List JValue) (st1 : StoreState),
      Insert reject accountID collection (.arr docs) st = (.ok rs, st1) →
      rs.length = docs.length ∧
      st1.rows.length = st.rows.length + docs.length ∧
      (∀ r ∈ rs, hasId r = true)) := by
  constructor
  · intro e st1 h
    rw [Insert] at h
    split at h
    next => simp at h
    next => simp at h; exact h.2.symm
    next => simp at h
  · intro rs st1 h
    rw [Insert] at h
    split at h
    next rs2 st2 hl =>
      simp only [Prod.mk.injEq, GoResult.ok.injEq] at h
      obtain ⟨h1, h2⟩ := h
      subst h1; subst h2
      exact insertLoop_ok reject accountID collection docs st _ _ hl
    next => simp at h
    next => simp at h

/-- Witness for C4_insert_atomicity: a backend that rejects every row makes
the one-element bulk insert fail, and the store state it hands back is the
pre-call state. -/
theorem C4_insert_atomicity_witness :
    (Insert (fun _ => true) 1 "c" (JValue.arr [JValue.obj []]) ⟨[], 1⟩).2 = ⟨[], 1⟩ :=
  (C4_insert_atomicity (fun _ => true) 1 "c" [JValue.obj []] ⟨[], 1⟩).1
    "constraint violation"
    (Insert (fun _ => true) 1 "c" (JValue.arr [JValue.obj []]) ⟨[], 1⟩).2 rfl

/-- Claim C5 (code_bug evidence).  For `a = $5 AND b = $6` with no bound
parameters the compile pass accumulates both bind errors — it does not stop
at the first — but _Select reads only the fragment text of the compiled
Query: the statement it builds carries the malformed fragment and the error
list is discarded, so no BindError ever reaches the caller of Select or
Delete. -/
theorem C5_bind_errors_accumulated_not_reported :
    pgProcess [] twoBadPlaceholders =
      .ok ⟨"( object->>'a' AND object->>'b' )",
          ["placholder to large", "placholder to large"]⟩ ∧
    selectStatement 7 "c" twoBadPlaceholders [] =
      .ok ⟨"SELECT id, account_id, collection, object FROM objects WHERE account_id = $1 AND collection = $2 AND ( object->>'a' AND object->>'b' );",
          [Param.int 7, Param.str "c"]⟩ :=
  ⟨rfl, rfl⟩

/-- Claim C6 (counterexample).  UpdateByID on an absent target — here the
empty store — reports success, returning the document with `$id` attached,
instead of failing with a NotFoundError: the UPDATE's affected-row count is
never inspected. -/
theorem C6_update_absent_reports_success :
    UpdateByID 1 "c" 5 (JValue.obj []) ⟨[], 1⟩ =
      (.ok (JValue.obj [("$id", JValue.int 5)]), ⟨[], 1⟩) := rfl

/-- Claim C6 (amended).  For every (tenant id, collection, id) triple for
which no row exists, UpdateByID reports success — the inbound identifier is
stripped and re-attached and no error is returned — and the store's state is
unchanged. -/
theorem C6_update_absent (accountID : Int) (collection : String) (id : Int)
    (fields : List (String × JValue)) (st : StoreState)
    (habsent : ∀ r ∈ st.rows, rowKeyMatch accountID collection id r = false) :
    UpdateByID accountID collection id (.obj fields) st =
      (.ok (.obj (mapSet "$id" (.int id) (mapDelete "$id" fields))), st) := by
  rw [UpdateByID]
  rw [map_unmatched_rows accountID collection id
    (JValue.obj (mapDelete "$id" fields)) st.rows habsent]

/-- Witness for C6_update_absent on a store holding only a row of another
collection. -/
theorem C6_update_absent_witness :
    UpdateByID 1 "c" 9 (JValue.obj [("k", JValue.str "v")]) ⟨[⟨9, 1, "d", JValue.obj []⟩], 10⟩ =
      (.ok (JValue.obj [("k", JValue.str "v"), ("$id", JValue.int 9)]),
       ⟨[⟨9, 1, "d", JValue.obj []⟩], 10⟩) :=
  C6_update_absent 1 "c" 9 [("k", JValue.str "v")] ⟨[⟨9, 1, "d", JValue.obj []⟩], 10⟩
    (by decide)

/-- Claim C7.  Operand dispatch of pgProcessExpression: a numeric literal
whose text contains a decimal point casts the extracted path text to FLOAT, a
numeric literal without one casts to INTEGER, a boolean literal casts to
BOOLEAN; a placeholder operand dispatches the same way on the bound value's
runtime type (float64 → FLOAT, int → INTEGER, bool → BOOLEAN). -/
theorem C7_operand_type_dispatch (params : List Param) (path : List String)
    (op : String) (s : String) (hpath : pgPathText path = .ok s) :
    (∀ t : String, t.data.contains '.' = true →
      pgProcessExpression params (.pred path op (.num t)) =
        .ok ⟨"CAST(" ++ s ++ " as FLOAT) " ++ op ++ " " ++ t, []⟩) ∧
    (∀ t : String, t.data.contains '.' = false →
      pgProcessExpression params (.pred path op (.num t)) =
        .ok ⟨"CAST(" ++ s ++ " as INTEGER) " ++ op ++ " " ++ t, []⟩) ∧
    (∀ t : String,
      pgProcessExpression params (.pred path op (.bool t)) =
        .ok ⟨"CAST(" ++ s ++ " as BOOLEAN) " ++ op ++ " " ++ t, []⟩) ∧
    (∀ (n : Nat) (t : String), ¬ n > params.length →
      goIndex params ((n : Int) - 1) = .ok (Param.float t) →
      pgProcessExpression params (.pred path op (.placeholder n)) =
        .ok ⟨"CAST(" ++ s ++ " as FLOAT) " ++ op ++ " " ++ t, []⟩) ∧
    (∀ (n : Nat) (v : Int), ¬ n > params.length →
      goIndex params ((n : Int) - 1) = .ok (Param.int v) →
      pgProcessExpression params (.pred path op (.placeholder n)) =
        .ok ⟨"CAST(" ++ s ++ " as INTEGER) " ++ op ++ " " ++ toString v, []⟩) ∧
    (∀ (n : Nat) (b : Bool), ¬ n > params.length →
      goIndex params ((n : Int) - 1) = .ok (Param.bool b) →
      pgProcessExpression params (.pred path op (.placeholder n)) =
        .ok ⟨"CAST(" ++ s ++ " as BOOLEAN) " ++ op ++ " "
              ++ (if b then "true" else "false"), []⟩) := by
  refine ⟨?_, ?_, ?_, ?_, ?_, ?_⟩
  · intro t ht
    simp only [pgProcessExpression, hpath, emit_bind_ok]
    rw [if_pos ht]
    rfl
  · intro t ht
    simp only [pgProcessExpression, hpath, emit_bind_ok]
    rw [if_neg (by rw [ht]; exact Bool.false_ne_true)]
    rfl
  · intro t
    simp only [pgProcessExpression, hpath, emit_bind_ok]
    rfl
  · intro n t hn hidx
    simp only [pgProcessExpression, hpath, emit_bind_ok]
    rw [if_neg hn, hidx, emit_bind_ok]
    rfl
  · intro n v hn hidx
    simp only [pgProcessExpression, hpath, emit_bind_ok]
    rw [if_neg hn, hidx, emit_bind_ok]
    rfl
  · intro n b hn hidx
    simp only [pgProcessExpression, hpath, emit_bind_ok]
    rw [if_neg hn, hidx, emit_bind_ok]
    rfl

/-- Witness for C7_operand_type_dispatch: the literal 3.0 takes the FLOAT
cast, the literal 3 the INTEGER cast, and a bound float64 the FLOAT cast. -/
theorem C7_operand_type_dispatch_witness :
    pgProcessExpression [] (.pred ["a"] "=" (.num "3.0")) =
      .ok ⟨"CAST(object->>'a' as FLOAT) = 3.0", []⟩ ∧
    pgProcessExpression [] (.pred ["a"] "=" (.num "3")) =
      .ok ⟨"CAST(object->>'a' as INTEGER) = 3", []⟩ ∧
    pgProcessExpression [Param.float "3.5"] (.pred ["a"] "<" (.placeholder 1)) =
      .ok ⟨"CAST(object->>'a' as FLOAT) < 3.5", []⟩ :=
  ⟨(C7_operand_type_dispatch [] ["a"] "=" "object->>'a'" rfl).1 "3.0" rfl,
   (C7_operand_type_dispatch [] ["a"] "=" "object->>'a'" rfl).2.1 "3" rfl,
   (C7_operand_type_dispatch [Param.float "3.5"] ["a"] "<" "object->>'a'" rfl).2.2.2.1
     1 "3.5" (by decide) rfl⟩

/-- Claim C8.  Migrate as a step function on the stored version: an
unreadable version row creates the schema table, seeds version 0 and migrates
regardless of configuration; a stored version equal to the target (1) is a
no-op without error; a stored version behind the target without the
configuration flag is an error with no DDL applied and the database
unchanged; behind the target with the flag, the single v0→v1 step applies the
objects DDL and the version bump as one transition. -/
theorem C8_migrate_step (confMigrate : Bool) (db : PgDatabase) :
    (db.schema.bind List.head? = none →
      Migrate confMigrate db =
        ({ db with
            objects := true,
            schema := some ((db.schema.getD [] ++ [0]).map (fun _ => (1 : Int))) },
         none)) ∧
    (db.schema.bind List.head? = some 1 → Migrate confMigrate db = (db, none)) ∧
    (∀ v : Int, db.schema.bind List.head? = some v → v < 1 → confMigrate = false →
      Migrate confMigrate db = (db, some migrateErrText)) ∧
    (∀ v : Int, db.schema.bind List.head? = some v → v < 1 → confMigrate = true →
      Migrate confMigrate db =
        ({ db with
            objects := true,
            schema := some ((db.schema.getD []).map (fun _ => (1 : Int))) }, none)) := by
  refine ⟨?_, ?_, ?_, ?_⟩
  · intro h
    rw [Migrate]
    simp [h, postgresCurrentVersion]
  · intro h
    rw [Migrate]
    simp [h, postgresCurrentVersion]
  · intro v h hv hc
    rw [Migrate]
    simp [h, postgresCurrentVersion, hc]
    omega
  · intro v h hv hc
    rw [Migrate]
    simp [h, postgresCurrentVersion, hc]
    rw [if_neg (by omega), if_pos hv]

/-- Witness for C8_migrate_step: stored version 0 without the flag errors
and leaves the database unchanged; with the flag the step runs to version 1
and creates the objects table. -/
theorem C8_migrate_step_witness :
    Migrate false ⟨some [0], false⟩ = (⟨some [0], false⟩, some migrateErrText) ∧
    Migrate true ⟨some [0], false⟩ = (⟨some [1], true⟩, none) :=
  ⟨(C8_migrate_step false ⟨some [0], false⟩).2.2.1 0 rfl (by decide) rfl,
   (C8_migrate_step true ⟨some [0], false⟩).2.2.2 0 rfl (by decide) rfl⟩

/-- Claim C9.  Only the upper bound of a placeholder index is validated: an
index exceeding the bound-parameter count accumulates the bind error and
emits the bare path text, but the placeholder `$0` (with a non-empty
parameter list, as everywhere) is resolved at list position -1, an
out-of-range access that panics instead of returning a bind error. -/
theorem C9_placeholder_zero_panics (params : List Param) (path : List String)
    (op : String) (s : String) (hne : params ≠ []) (hpath : pgPathText path = .ok s) :
    pgProcessExpression params (.pred path op (.placeholder 0)) =
      .error .outOfRange ∧
    (∀ n : Nat, n > params.length →
      pgProcessExpression params (.pred path op (.placeholder n)) =
        .ok ⟨s, ["placholder to large"]⟩) := by
  constructor
  · simp only [pgProcessExpression, hpath, emit_bind_ok]
    rw [if_neg (by exact Nat.not_lt_zero params.length)]
    have hgi : goIndex params (((0 : Nat) : Int) - 1) = .error .outOfRange := by
      rw [goIndex, dif_neg]
      simp
    rw [hgi, emit_bind_error]
  · intro n hn
    simp only [pgProcessExpression, hpath, emit_bind_ok]
    rw [if_pos hn]
    rfl

/-- Witness for C9_placeholder_zero_panics: `$0` against one bound parameter
panics; `$2` against the same list is the accumulated bind error. -/
theorem C9_placeholder_zero_panics_witness :
    pgProcessExpression [Param.str "x"] (.pred ["a"] "=" (.placeholder 0)) =
      .error .outOfRange ∧
    pgProcessExpression [Param.str "x"] (.pred ["a"] "=" (.placeholder 2)) =
      .ok ⟨"object->>'a'", ["placholder to large"]⟩ :=
  ⟨(C9_placeholder_zero_panics [Param.str "x"] ["a"] "=" "object->>'a'"
      (by decide) rfl).1,
   (C9_placeholder_zero_panics [Param.str "x"] ["a"] "=" "object->>'a'"
      (by decide) rfl).2 2 (by decide)⟩

/-- Claim C10.  Non-object JSON values panic on the unchecked map type
assertion: Insert of a non-object, non-array document; Insert of a bulk array
whose element is a non-object (after any prefix of accepted objects);
UpdateByID of a non-object document; SelectByID of a row whose stored body is
a non-object; and the row scan of Select when any returned row's body is a
non-object (after any prefix of object rows). -/
theorem C10_nonobject_panics (reject : JValue → Bool) (accountID : Int)
    (collection : String) (id : Int) (st : StoreState) :
    (∀ v : JValue, v.isObj = false → v.isArr = false →
      Insert reject accountID collection v st = (.panicked, st)) ∧
    (∀ (pre : List JValue) (w : JValue) (post : List JValue),
      (∀ u ∈ pre, ∃ f, u = JValue.obj f ∧
        reject (JValue.obj (mapDelete "$id" f)) = false) →
      w.isObj = false →
      (Insert reject accountID collection (.arr (pre ++ w :: post)) st).1 = .panicked) ∧
    (∀ v : JValue, v.isObj = false →
      UpdateByID accountID collection id v st = (.panicked, st)) ∧
    (∀ r : Row, st.rows.find? (rowKeyMatch accountID collection id) = some r →
      r.object.isObj = false →
      SelectByID accountID collection id st = .panicked) ∧
    (∀ (pre : List Row) (r : Row) (post : List Row),
      (∀ u ∈ pre, u.object.isObj = true) → r.object.isObj = false →
      selectScan (pre ++ r :: post) = .panicked) := by
  refine ⟨?_, ?_, ?_, ?_, ?_⟩
  · intro v hobj harr
    cases v <;> simp [JValue.isObj, JValue.isArr] at hobj harr <;> rfl
  · intro pre w post hpre hw
    rw [Insert]
    rcases hl : insertLoop reject accountID collection (pre ++ w :: post) st
      with ⟨res, st2⟩
    have hp := insertLoop_panics reject accountID collection w hw post pre st hpre
    rw [hl] at hp
    simp at hp
    subst hp
    simp
  · intro v hobj
    cases v <;> simp [JValue.isObj] at hobj <;> rfl
  · intro r hfind hobj
    simp only [SelectByID, hfind]
    rcases hro : r.object with _ | _ | _ | _ | _ | _ | fields
    case obj =>
      rw [hro] at hobj
      simp [JValue.isObj] at hobj
    all_goals rfl
  · intro pre r post hpre hobj
    exact selectScan_panics r hobj post pre hpre

/-- Witness for C10_nonobject_panics: updating with a bare JSON string
panics, and a bulk insert whose second element is a bare string panics. -/
theorem C10_nonobject_panics_witness :
    UpdateByID 1 "c" 5 (JValue.str "doc") ⟨[], 1⟩ = (.panicked, ⟨[], 1⟩) ∧
    (Insert (fun _ => false) 1 "c"
      (JValue.arr [JValue.obj [], JValue.str "doc"]) ⟨[], 1⟩).1 = .panicked :=
  ⟨(C10_nonobject_panics (fun _ => false) 1 "c" 5 ⟨[], 1⟩).2.2.1
      (JValue.str "doc") rfl,
   (C10_nonobject_panics (fun _ => false) 1 "c" 5 ⟨[], 1⟩).2.1
      [JValue.obj []] (JValue.str "doc") []
      (by intro u hu
          simp at hu
          exact ⟨[], hu, rfl⟩) rfl⟩

end Gateway
